import Mathlib

/-!
# A shallow embedding of `repo2prompt.py`

This file embeds the `Repo2Prompt` lifecycle of `repo2prompt.py` — URL
validation, cloning into a temporary directory, subdirectory resolution,
invocation of the external `code2prompt` binary, and scoped cleanup — and
proves the design-contract properties stated for it.

Modelling conventions:

* The filesystem is a `World`: the list of paths that currently exist.
  `os.path.exists` is membership, `shutil.rmtree` removes a path and every
  path strictly beneath it.
* External processes (git, code2prompt, `tempfile.mkdtemp`) are oracles
  collected in an `Env` record: their exit codes, output streams and the
  fresh temporary-directory name are inputs to the embedded functions.
  Each `subprocess.run` call performed is recorded as a `ProcCall`, with a
  flag saying whether its output streams were captured
  (`capture_output=True`) or left connected to the caller's streams.
* Python exceptions become an `Err` inductive with one constructor per
  raise site reached by the lifecycle, carrying the formatted message.
* `json.loads` (standard library, not repository code) is an uninterpreted
  parameter `jp : String → Option Json`: `some v` models a successful
  parse, `none` models `json.JSONDecodeError`.
* `urllib.parse.urlparse` netloc extraction is embedded following the
  CPython `urlsplit` source: strip leading/trailing C0-control-or-space
  characters, remove tab/CR/LF, split off a syntactically valid scheme,
  then take the text after `//` up to the first `/`, `?` or `#`.
-/

/-! ## Strings and paths -/

/-- Character-list test: the first list is an initial segment of the second. -/
def isLeadOf : List Char → List Char → Bool
  | [], _ => true
  | _ :: _, [] => false
  | a :: as, b :: bs => (a = b) && isLeadOf as bs

/-- `s.startswith(p)` on strings, kernel-reducible. -/
def startswith (s p : String) : Bool := isLeadOf p.data s.data

/-- `s.endswith(p)` on strings, kernel-reducible. -/
def endswith (s p : String) : Bool := isLeadOf p.data.reverse s.data.reverse

/-- `os.path.join(a, b)` for a POSIX path separator, from `posixpath.join`:
an absolute `b` replaces `a`; otherwise a separator is inserted unless `a`
is empty or already ends with one.  In particular `join(a, "") = a ++ "/"`
for a nonempty `a` without a trailing separator. -/
def osPathJoin (a b : String) : String :=
  if startswith b "/" then b
  else if a = "" ∨ endswith a "/" then a ++ b
  else a ++ "/" ++ b

/-- The filesystem: the set of currently existing paths. -/
structure World where
  dirs : List String

/-- `os.path.exists`, as membership in the world. -/
def pathExists (w : World) (p : String) : Bool := w.dirs.contains p

/-- `p` is the directory `d` itself or lies beneath it. -/
def underDir (d p : String) : Bool := p = d || startswith p (d ++ "/")

/-- `shutil.rmtree(d, ignore_errors=True)`: every path at or beneath `d`
disappears; failures are swallowed, so the model always succeeds. -/
def rmtree (w : World) (d : String) : World :=
  { dirs := w.dirs.filter (fun p => !(underDir d p)) }

/-! ## URL parsing (`urllib.parse`) -/

/-- WHATWG C0-control-or-space predicate used by `urlsplit` to strip the
ends of the URL: code points up to and including U+0020. -/
def isC0OrSpace (c : Char) : Bool := c.val ≤ 32

/-- Strip C0-control-or-space characters from both ends. -/
def stripEnds (l : List Char) : List Char :=
  ((l.dropWhile isC0OrSpace).reverse.dropWhile isC0OrSpace).reverse

/-- `urlsplit`'s `scheme_chars`: ASCII letters, digits, `+`, `-`, `.`. -/
def isSchemeChar (c : Char) : Bool :=
  c.isAlpha || c.isDigit || c = '+' || c = '-' || c = '.'

/-- Drop a leading `scheme:` when the text before the first colon is a
syntactically valid scheme (first character alphabetic, all scheme
characters, colon not at position 0), as in CPython `urlsplit`. -/
def schemeRest (l : List Char) : List Char :=
  match l.findIdx? (fun c => c = ':') with
  | some i =>
      if 0 < i ∧ (l.headD ' ').isAlpha ∧ (l.take i).all isSchemeChar then
        l.drop (i + 1)
      else l
  | none => l

/-- The `netloc` component of `urlparse(url)`: after sanitising and
scheme-splitting, the text between a leading `//` and the first `/`, `?`
or `#`; empty when the remainder does not start with `//`. -/
def netlocOf (url : String) : String :=
  let l := stripEnds url.toList
  let l := l.filter (fun c => !(c = '\t' || c = '\r' || c = '\n'))
  match schemeRest l with
  | '/' :: '/' :: r =>
      String.mk (r.takeWhile (fun c => !(c = '/' || c = '?' || c = '#')))
  | _ => ""

/-- `Repo2Prompt._validate_github_url` (repo2prompt.py lines 98-101):
`urlparse(url).netloc in ['github.com', 'www.github.com']`. -/
def _validate_github_url (url : String) : Bool :=
  ["github.com", "www.github.com"].contains (netlocOf url)

/-- The `host` of a URL in the sense the specification's words use it
(`urlparse(url).hostname`): the netloc with any userinfo before the last
`@` and any `:port` suffix removed, lowercased. -/
def hostOf (url : String) : String :=
  let n := (netlocOf url).data
  let afterAt := ((n.reverse.takeWhile (fun c => c ≠ '@')).reverse)
  String.mk ((afterAt.takeWhile (fun c => c ≠ ':')).map Char.toLower)

/-! ## Errors, results, options -/

/-- The Python exceptions the lifecycle can raise, one constructor per
raise site:
* `validationError` — `ValueError` at repo2prompt.py line 273;
* `cloneError` — `RuntimeError` at line 136;
* `notFoundError` — `ValueError` at line 145;
* `invocationError` — `RuntimeError` at line 227;
* `jsonDecodeError` — `json.JSONDecodeError` escaping `json.loads` at
  line 220 (not caught by the `except subprocess.CalledProcessError`
  handler, so it propagates as-is). -/
inductive Err where
  | validationError (msg : String)
  | cloneError (msg : String)
  | notFoundError (msg : String)
  | invocationError (msg : String)
  | jsonDecodeError
deriving DecidableEq

/-- Specification section 7 defines InvocationError as: external generator
exited non-zero, or (structured mode) produced output that fails to parse
as the expected structure.  This predicate expresses that grouping over
the embedded exception type: it holds of the two raise sites reachable
from `_run_code2prompt`. -/
def isInvocationError : Err → Bool
  | Err.invocationError _ => true
  | Err.jsonDecodeError => true
  | _ => false

/-- Parsed JSON values, the possible results of `json.loads`. -/
inductive Json where
  | null : Json
  | bool : Bool → Json
  | num : Int → Json
  | str : String → Json
  | arr : List Json → Json
  | obj : List (String × Json) → Json

/-- The dictionary `{"status": "success"}` returned by streaming-mode
invocation (repo2prompt.py line 224). -/
def successMarker : Json := Json.obj [("status", Json.str "success")]

/-- The keyword options of `_run_code2prompt` / `generate_prompt`
(repo2prompt.py lines 149-164).  The Python parameter `include` is a Lean
keyword and is embedded as `include_globs`. -/
structure Options where
  template : Option String := none
  include_globs : Option (List String) := none
  exclude : Option (List String) := none
  count_tokens : Bool := false
  encoding : Option String := none
  output : Option String := none
  output_format : Option String := none
  diff : Bool := false
  line_number : Bool := false
  no_codeblock : Bool := false
  hidden : Bool := false
  no_ignore : Bool := false
  git_diff_branch : Option String := none
  git_log_branch : Option String := none

/-- Python truthiness of an `Optional[str]`: `None` and `""` are falsy. -/
def truthyStr : Option String → Bool
  | some s => !(s = "")
  | none => false

/-- Python truthiness of an `Optional[List[str]]`: `None` and `[]` are
falsy. -/
def truthyList : Option (List String) → Bool
  | some l => !(l.isEmpty)
  | none => false

/-! ## External-process oracles -/

/-- The outside world's responses for one `generate` run: the fresh name
`tempfile.mkdtemp` returns, git's exit code and standard-error text, the
relative paths a successful clone populates beneath the temporary
directory, and code2prompt's exit code and captured output streams. -/
structure Env where
  mkdtempName : String
  gitExit : Nat
  gitStderr : String
  clonedPaths : List String
  c2pExit : Nat
  c2pStdout : String
  c2pStderr : String

/-- One `subprocess.run` invocation: the argument vector and whether its
standard output/error were captured (`capture_output=True`) rather than
left connected to the caller's streams. -/
structure ProcCall where
  cmd : List String
  captured : Bool
deriving DecidableEq

/-- The `Repo2Prompt` instance state: `self.temp_dir`, `None` until a
clone assigns it (repo2prompt.py lines 88-89, 124). -/
structure Repo2Prompt where
  temp_dir : Option String := none

/-- `Repo2Prompt.__exit__` (repo2prompt.py lines 94-96): if `self.temp_dir`
is truthy (assigned and nonempty), remove it recursively, ignoring
errors. -/
def scopeExit (self : Repo2Prompt) (w : World) : World :=
  match self.temp_dir with
  | some d => if d = "" then w else rmtree w d
  | none => w

/-! ## The four lifecycle operations -/

/-- `Repo2Prompt._clone_repository` (repo2prompt.py lines 122-136):
`mkdtemp` creates the temporary directory and assigns `self.temp_dir`
before git runs; a successful git run populates the directory with the
cloned content; a non-zero git exit raises
`RuntimeError("Failed to clone repository: " + stderr)`.  Returns the
result, the updated instance state, the updated world, and the process
calls made. -/
def _clone_repository (url : String) (branch : Option String) (env : Env)
    (self0 : Repo2Prompt) (w : World) :
    Except Err String × Repo2Prompt × World × List ProcCall :=
  let temp_dir := env.mkdtempName
  let self : Repo2Prompt := { self0 with temp_dir := some temp_dir }
  let w : World := { dirs := temp_dir :: w.dirs }
  let cmd := ["git", "clone"]
    ++ (if truthyStr branch then ["--branch", branch.getD ""] else [])
    ++ [url, temp_dir]
  let call : ProcCall := { cmd := cmd, captured := true }
  if env.gitExit = 0 then
    (Except.ok temp_dir, self,
      { dirs := env.clonedPaths.map (fun p => temp_dir ++ "/" ++ p) ++ w.dirs },
      [call])
  else
    (Except.error (Err.cloneError ("Failed to clone repository: " ++ env.gitStderr)),
      self, w, [call])

/-- `Repo2Prompt._get_subdirectory_path` (repo2prompt.py lines 138-147):
a falsy `subdirectory` (absent or empty) returns `base_dir` unchanged;
otherwise the joined path is returned if it exists and
`ValueError("Subdirectory '...' does not exist in the repository")` is
raised if not.  The world is only read, never changed. -/
def _get_subdirectory_path (base_dir : String) (subdirectory : Option String)
    (w : World) : Except Err String :=
  if !(truthyStr subdirectory) then Except.ok base_dir
  else
    let s := subdirectory.getD ""
    let full_path := osPathJoin base_dir s
    if pathExists w full_path then Except.ok full_path
    else Except.error (Err.notFoundError
      ("Subdirectory \x27" ++ s ++ "\x27 does not exist in the repository"))

/-- One `if x: cmd.extend([flag, x])` step for a string option
(repo2prompt.py lines 169-170, 183-190, 207-211). -/
def strFlag (flag : String) (x : Option String) : List String :=
  if truthyStr x then [flag, x.getD ""] else []

/-- One `if xs: cmd.extend([flag, ",".join(xs)])` step for a glob-list
option (repo2prompt.py lines 172-178). -/
def listFlag (flag : String) (x : Option (List String)) : List String :=
  if truthyList x then [flag, String.intercalate "," (x.getD [])] else []

/-- One `if b: cmd.append(flag)` step for a boolean option
(repo2prompt.py lines 180-181, 192-205). -/
def boolFlag (flag : String) (b : Bool) : List String :=
  if b then [flag] else []

/-- The command line built by `_run_code2prompt` before the run
(repo2prompt.py lines 166-211): `code2prompt <directory>` followed by one
flag group per truthy option, in source order. -/
def buildCmd (directory : String) (o : Options) : List String :=
  ["code2prompt", directory]
  ++ strFlag "--template" o.template
  ++ listFlag "--include" o.include_globs
  ++ listFlag "--exclude" o.exclude
  ++ boolFlag "--tokens" o.count_tokens
  ++ strFlag "--encoding" o.encoding
  ++ strFlag "--output" o.output
  ++ strFlag "-O" o.output_format
  ++ boolFlag "--diff" o.diff
  ++ boolFlag "--line-number" o.line_number
  ++ boolFlag "--no-codeblock" o.no_codeblock
  ++ boolFlag "--hidden" o.hidden
  ++ boolFlag "--no-ignore" o.no_ignore
  ++ strFlag "--git-diff-branch" o.git_diff_branch
  ++ strFlag "--git-log-branch" o.git_log_branch

/-- `Repo2Prompt._run_code2prompt` (repo2prompt.py lines 149-227).
Structured mode (`output_format == "json"`): the branch at line 217
extends the already built command with a second `["-O", "json"]`, runs it
with output captured, raises
`RuntimeError("Failed to run code2prompt: " + stderr)` on a non-zero
exit, and otherwise returns `json.loads(stdout)` — whose failure escapes
as `json.JSONDecodeError`.  Streaming mode (any other `output_format`):
runs the built command with streams left connected to the caller's,
returns `{"status": "success"}` on exit code zero, and on a non-zero exit
raises `RuntimeError` whose `e.stderr` interpolates as `None` since
nothing was captured. -/
def _run_code2prompt (directory : String) (o : Options) (env : Env)
    (jp : String → Option Json) : ProcCall × Except Err Json :=
  let cmd := buildCmd directory o
  if o.output_format = some "json" then
    let cmd := cmd ++ ["-O", "json"]
    let call : ProcCall := { cmd := cmd, captured := true }
    if env.c2pExit = 0 then
      match jp env.c2pStdout with
      | some v => (call, Except.ok v)
      | none => (call, Except.error Err.jsonDecodeError)
    else
      (call, Except.error (Err.invocationError
        ("Failed to run code2prompt: " ++ env.c2pStderr)))
  else
    let call : ProcCall := { cmd := cmd, captured := false }
    if env.c2pExit = 0 then (call, Except.ok successMarker)
    else (call, Except.error (Err.invocationError "Failed to run code2prompt: None"))

/-- `Repo2Prompt.generate_prompt` (repo2prompt.py lines 229-298): validate
the URL (raising `ValueError` before any clone), clone, resolve the
subdirectory, and run code2prompt, short-circuiting on the first failure.
Cleanup is not performed here: it belongs to the enclosing scope's
`__exit__`. -/
def generate_prompt (github_url : String) (subdirectory : Option String)
    (branch : Option String) (o : Options) (env : Env)
    (jp : String → Option Json) (self : Repo2Prompt) (w : World) :
    Except Err Json × Repo2Prompt × World × List ProcCall :=
  if !(_validate_github_url github_url) then
    (Except.error (Err.validationError
      ("Invalid GitHub repository URL: " ++ github_url)), self, w, [])
  else
    match _clone_repository github_url branch env self w with
    | (Except.error e, self1, w1, calls) => (Except.error e, self1, w1, calls)
    | (Except.ok repo_dir, self1, w1, calls) =>
      match _get_subdirectory_path repo_dir subdirectory w1 with
      | Except.error e => (Except.error e, self1, w1, calls)
      | Except.ok target_dir =>
        let cr := _run_code2prompt target_dir o env jp
        (cr.2, self1, w1, calls ++ [cr.1])

/-- The specification's `generate` — the scoped entry point, i.e.
`with Repo2Prompt() as r2p: r2p.generate_prompt(...)` as used by `main`
(repo2prompt.py lines 345-364): a fresh instance runs `generate_prompt`
and `__exit__` then removes the temporary directory, whether the result is
a success or any of the failures. -/
def generate (github_url : String) (subdirectory : Option String)
    (branch : Option String) (o : Options) (env : Env)
    (jp : String → Option Json) (w : World) :
    Except Err Json × World × List ProcCall :=
  let r := generate_prompt github_url subdirectory branch o env jp {} w
  (r.1, scopeExit r.2.1 r.2.2.1, r.2.2.2)

/-- Count the (possibly overlapping) occurrences of the adjacent pair
`a, b` in a list of command-line words. -/
def countPair (a b : String) : List String → Nat
  | x :: y :: rest => (if x = a ∧ y = b then 1 else 0) + countPair a b (y :: rest)
  | _ => 0

/-- The head word of each recorded process call: which external programs
ran, in order. -/
def callHeads (calls : List ProcCall) : List String :=
  calls.map (fun c => c.cmd.headD "")

/-- A sample environment for concrete witness instances: a fresh temporary
name, a successful clone that populates `src`, and a successful generator
run. -/
def sampleEnv : Env :=
  { mkdtempName := "/tmp/repo2prompt_a1", gitExit := 0, gitStderr := "",
    clonedPaths := ["src"], c2pExit := 0, c2pStdout := "x", c2pStderr := "" }

/-- A sample `json.loads` oracle that parses every text. -/
def jpConst : String → Option Json := fun _ => some (Json.str "parsed")

/-- A sample `json.loads` oracle that rejects every text. -/
def jpNone : String → Option Json := fun _ => none

/-! ## Theorems -/

theorem truthyStr_none_eq : truthyStr none = false := rfl

theorem truthyStr_some_eq (s : String) : truthyStr (some s) = !(s = "") := rfl

theorem truthyList_none_eq : truthyList none = false := rfl

theorem truthyList_some_eq (l : List String) : truthyList (some l) = !(l.isEmpty) := rfl

/-- C4 — counterexample.  The claim "validate(url) returns true if and only
if the string parses as a URL whose host is github.com or www.github.com"
fails at `https://github.com:443/owner/repo`: its host is `github.com`,
but the code compares the whole netloc (`github.com:443`) against the two
literals, so validation returns false. -/
theorem c4_validate_counterexample :
    ¬ (_validate_github_url "https://github.com:443/owner/repo" = true ↔
        (hostOf "https://github.com:443/owner/repo" = "github.com" ∨
         hostOf "https://github.com:443/owner/repo" = "www.github.com")) := by
  decide

/-- C4 — amended.  `_validate_github_url` is a pure function of the URL
string; it returns true exactly when the parsed network-location component
(the netloc: authority as written, userinfo and port included,
case-sensitive) is `github.com` or `www.github.com`.  It performs no I/O
and no reachability check: the embedding is a total function of the
string alone. -/
theorem c4_validate_netloc (url : String) :
    _validate_github_url url = true ↔
      (netlocOf url = "github.com" ∨ netlocOf url = "www.github.com") := by
  simp [_validate_github_url]

/-- C6 — counterexample.  The claim "for every present subdirectory
argument, resolveSubdirectory returns the join of root and subdirectory
when that path exists, and fails with NotFoundError when it does not"
fails for the present-but-empty subdirectory `some ""` on a filesystem
where only the file `/r` exists: the joined path `/r/` does not exist,
yet the code returns `/r` instead of a NotFoundError, because Python's
`if not subdirectory:` treats the empty string like an absent one. -/
theorem c6_subdirectory_counterexample :
    _get_subdirectory_path "/r" (some "") { dirs := ["/r"] } = Except.ok "/r" ∧
    pathExists { dirs := ["/r"] } (osPathJoin "/r" "") = false := by
  exact ⟨rfl, by decide⟩

/-- C6 — amended.  `resolveSubdirectory(root, None)` returns `root`
unchanged for every filesystem (identity law), and for every present
**non-empty** subdirectory it returns the join of root and subdirectory
when that path exists and fails with NotFoundError when it does not.  The
operation only reads the world: it takes the filesystem as a value and
returns no updated one. -/
theorem c6_resolve_subdirectory (root : String) (w : World) :
    _get_subdirectory_path root none w = Except.ok root ∧
    ∀ s : String, s ≠ "" →
      _get_subdirectory_path root (some s) w =
        (if pathExists w (osPathJoin root s) then Except.ok (osPathJoin root s)
         else Except.error (Err.notFoundError
           ("Subdirectory \x27" ++ s ++ "\x27 does not exist in the repository"))) := by
  constructor
  · rfl
  · intro s hs
    simp [_get_subdirectory_path, truthyStr, hs]

theorem c6_resolve_subdirectory_witness :
    (("src" : String) ≠ "") ∧
    _get_subdirectory_path "/r" (some "src") { dirs := ["/r/src"] } =
      Except.ok "/r/src" := by
  refine ⟨by decide, ?_⟩
  have h := (c6_resolve_subdirectory "/r" { dirs := ["/r/src"] }).2 "src" (by decide)
  simpa using h

/-- C7.  When the external clone client exits non-zero,
`_clone_repository` fails with a CloneError whose message carries the
client's stderr text; `self.temp_dir` was already assigned when the
failure is raised, and the temporary directory is present in the world it
leaves behind, so the enclosing scope's `__exit__` can clean it up. -/
theorem c7_clone_failure (url : String) (branch : Option String) (env : Env)
    (self0 : Repo2Prompt) (w : World) (h : env.gitExit ≠ 0) :
    (_clone_repository url branch env self0 w).1 =
      Except.error (Err.cloneError ("Failed to clone repository: " ++ env.gitStderr)) ∧
    (_clone_repository url branch env self0 w).2.1.temp_dir = some env.mkdtempName ∧
    env.mkdtempName ∈ (_clone_repository url branch env self0 w).2.2.1.dirs := by
  simp [_clone_repository, h]

theorem c7_clone_failure_witness :
    ({ sampleEnv with gitExit := 1, gitStderr := "fatal: not found" } : Env).gitExit ≠ 0 ∧
    (_clone_repository "https://github.com/a/b" none
        { sampleEnv with gitExit := 1, gitStderr := "fatal: not found" } {}
        { dirs := ["/home"] }).1 =
      Except.error (Err.cloneError "Failed to clone repository: fatal: not found") := by
  exact ⟨by decide,
    (c7_clone_failure "https://github.com/a/b" none
      { sampleEnv with gitExit := 1, gitStderr := "fatal: not found" } {}
      { dirs := ["/home"] } (by decide)).1⟩

/-- C10.  A present-but-empty subdirectory is treated exactly like an
absent one: `_get_subdirectory_path` returns the root for every
filesystem (so no existence check can fail and no NotFoundError arises),
and an empty include or exclude glob list builds exactly the same command
as an absent one — no `--include`/`--exclude` flag at all. -/
theorem c10_empty_is_absent (root d : String) (w : World) (o : Options) :
    _get_subdirectory_path root (some "") w = _get_subdirectory_path root none w ∧
    _get_subdirectory_path root (some "") w = Except.ok root ∧
    buildCmd d { o with include_globs := some [] } =
      buildCmd d { o with include_globs := none } ∧
    buildCmd d { o with exclude := some [] } = buildCmd d { o with exclude := none } := by
  refine ⟨rfl, rfl, ?_, ?_⟩ <;> simp [buildCmd, listFlag, truthyList]

theorem run_code2prompt_call_eq (d : String) (o : Options) (env : Env)
    (jp : String → Option Json) :
    (_run_code2prompt d o env jp).1 =
      if o.output_format = some "json" then
        { cmd := buildCmd d o ++ ["-O", "json"], captured := true }
      else { cmd := buildCmd d o, captured := false } := by
  unfold _run_code2prompt
  by_cases hfmt : o.output_format = some "json"
  · rw [if_pos hfmt, if_pos hfmt]
    by_cases he : env.c2pExit = 0
    · rw [if_pos he]
      cases hj : jp env.c2pStdout <;> simp [hj]
    · rw [if_neg he]
  · rw [if_neg hfmt, if_neg hfmt]
    by_cases he : env.c2pExit = 0
    · rw [if_pos he]
    · rw [if_neg he]

theorem run_code2prompt_structured_res (d : String) (o : Options) (env : Env)
    (jp : String → Option Json) (hfmt : o.output_format = some "json") :
    (_run_code2prompt d o env jp).2 =
      if env.c2pExit = 0 then
        (match jp env.c2pStdout with
         | some v => Except.ok v
         | none => Except.error Err.jsonDecodeError)
      else Except.error (Err.invocationError
        ("Failed to run code2prompt: " ++ env.c2pStderr)) := by
  unfold _run_code2prompt
  rw [if_pos hfmt]
  by_cases he : env.c2pExit = 0
  · rw [if_pos he, if_pos he]
    cases hj : jp env.c2pStdout <;> simp [hj]
  · rw [if_neg he, if_neg he]

theorem run_code2prompt_streaming_res (d : String) (o : Options) (env : Env)
    (jp : String → Option Json) (hfmt : o.output_format ≠ some "json") :
    (_run_code2prompt d o env jp).2 =
      if env.c2pExit = 0 then Except.ok successMarker
      else Except.error (Err.invocationError "Failed to run code2prompt: None") := by
  unfold _run_code2prompt
  rw [if_neg hfmt]
  by_cases he : env.c2pExit = 0
  · rw [if_pos he, if_pos he]
  · rw [if_neg he, if_neg he]

/-- C2.  In structured mode (requested output format `json`) the external
process's standard output is captured; when the process exits zero and its
output parses, the parsed structure is returned; a failing parse raises
the JSON decoder's error and a non-zero exit raises the
`Failed to run code2prompt` error, both of which the specification's
section 7 classifies as InvocationError; and a value is returned only when
the exit code was zero and the whole output parsed — never partial data. -/
theorem c2_structured_invoke (d : String) (o : Options) (env : Env)
    (jp : String → Option Json) (hfmt : o.output_format = some "json") :
    (_run_code2prompt d o env jp).1.captured = true ∧
    (env.c2pExit = 0 → ∀ v, jp env.c2pStdout = some v →
      (_run_code2prompt d o env jp).2 = Except.ok v) ∧
    (env.c2pExit = 0 → jp env.c2pStdout = none →
      (_run_code2prompt d o env jp).2 = Except.error Err.jsonDecodeError) ∧
    (env.c2pExit ≠ 0 →
      (_run_code2prompt d o env jp).2 =
        Except.error (Err.invocationError
          ("Failed to run code2prompt: " ++ env.c2pStderr))) ∧
    (∀ e, (_run_code2prompt d o env jp).2 = Except.error e →
      isInvocationError e = true) ∧
    (∀ v, (_run_code2prompt d o env jp).2 = Except.ok v →
      env.c2pExit = 0 ∧ jp env.c2pStdout = some v) := by
  have hcall := run_code2prompt_call_eq d o env jp
  have hres := run_code2prompt_structured_res d o env jp hfmt
  rw [if_pos hfmt] at hcall
  refine ⟨by rw [hcall], ?_, ?_, ?_, ?_, ?_⟩
  · intro he v hv
    rw [hres, if_pos he, hv]
  · intro he hv
    rw [hres, if_pos he, hv]
  · intro he
    rw [hres, if_neg he]
  · intro e herr
    rw [hres] at herr
    by_cases he : env.c2pExit = 0
    · rw [if_pos he] at herr
      cases hj : jp env.c2pStdout <;> rw [hj] at herr
      · cases herr
        rfl
      · cases herr
    · rw [if_neg he] at herr
      cases herr
      rfl
  · intro v hv
    rw [hres] at hv
    by_cases he : env.c2pExit = 0
    · rw [if_pos he] at hv
      cases hj : jp env.c2pStdout <;> rw [hj] at hv
      · cases hv
      · cases hv
        exact ⟨he, rfl⟩
    · rw [if_neg he] at hv
      cases hv

theorem c2_structured_invoke_witness :
    (({ output_format := some "json" } : Options).output_format = some "json") ∧
    sampleEnv.c2pExit = 0 ∧ jpConst sampleEnv.c2pStdout = some (Json.str "parsed") ∧
    (_run_code2prompt "/d" { output_format := some "json" } sampleEnv jpConst).2 =
      Except.ok (Json.str "parsed") := by
  refine ⟨rfl, rfl, rfl, ?_⟩
  exact (c2_structured_invoke "/d" { output_format := some "json" } sampleEnv jpConst
    rfl).2.1 rfl (Json.str "parsed") rfl

/-- C8.  In streaming mode (any output format other than `json`, or none)
the external process's streams are left connected to the caller's
(uncaptured); an exit code of zero returns the simple success marker
`{"status": "success"}`, any other exit code fails with the
InvocationError raise site (whose message interpolates Python's `None`
since no stderr was captured); and the outcome depends on nothing but the
exit code — not on anything the process printed. -/
theorem c8_streaming_invoke (d : String) (o : Options) (env : Env)
    (jp : String → Option Json) (hfmt : o.output_format ≠ some "json") :
    (_run_code2prompt d o env jp).1.captured = false ∧
    (env.c2pExit = 0 → (_run_code2prompt d o env jp).2 = Except.ok successMarker) ∧
    (env.c2pExit ≠ 0 → (_run_code2prompt d o env jp).2 =
      Except.error (Err.invocationError "Failed to run code2prompt: None")) ∧
    (∀ (env2 : Env) (jp2 : String → Option Json), env2.c2pExit = env.c2pExit →
      (_run_code2prompt d o env2 jp2).2 = (_run_code2prompt d o env jp).2) := by
  have hcall := run_code2prompt_call_eq d o env jp
  have hres := run_code2prompt_streaming_res d o env jp hfmt
  rw [if_neg hfmt] at hcall
  refine ⟨by rw [hcall], ?_, ?_, ?_⟩
  · intro he
    rw [hres, if_pos he]
  · intro he
    rw [hres, if_neg he]
  · intro env2 jp2 he2
    rw [hres, run_code2prompt_streaming_res d o env2 jp2 hfmt, he2]

theorem c8_streaming_invoke_witness :
    (({} : Options).output_format ≠ some "json") ∧
    (_run_code2prompt "/d" {} sampleEnv jpConst).1.captured = false ∧
    (_run_code2prompt "/d" {} sampleEnv jpConst).2 = Except.ok successMarker := by
  have h := c8_streaming_invoke "/d" {} sampleEnv jpConst (by decide)
  exact ⟨by decide, h.1, h.2.1 rfl⟩

/-- C3 — the code contradicts the one-flag-per-option contract in
structured mode: the generic option mapping already appends `-O json`
(repo2prompt.py line 190), and the structured-mode branch appends a second
`-O json` before running (line 217), so the executed command carries the
pair twice, not exactly once. -/
theorem c3_structured_dup_flag (d : String) (env : Env) (jp : String → Option Json) :
    (_run_code2prompt d { output_format := some "json" } env jp).1.cmd =
      ["code2prompt", d, "-O", "json", "-O", "json"] ∧
    countPair "-O" "json"
      (_run_code2prompt d { output_format := some "json" } env jp).1.cmd = 2 ∧
    countPair "-O" "json" (buildCmd d { output_format := some "json" }) = 1 := by
  have hcall := run_code2prompt_call_eq d { output_format := some "json" } env jp
  rw [if_pos rfl] at hcall
  have hbuild : buildCmd d { output_format := some "json" } = ["code2prompt", d, "-O", "json"] := by
    simp [buildCmd, strFlag, listFlag, boolFlag, truthyStr, truthyList]
  refine ⟨?_, ?_, ?_⟩
  · rw [hcall, hbuild]
    rfl
  · rw [hcall, hbuild]
    simp [countPair]
  · rw [hbuild]
    simp [countPair]

/-- C9.  With include globs `*.py`, `*.md` and exclude glob `tests/*`, the
built command is exactly `code2prompt <dir> --include *.py,*.md --exclude
tests/*`; and in general every present non-empty glob list contributes a
single flag whose argument is the list joined with commas in order
(`",".join`). -/
theorem c9_glob_joining (d : String) :
    buildCmd d { include_globs := some ["*.py", "*.md"], exclude := some ["tests/*"] } =
      ["code2prompt", d, "--include", "*.py,*.md", "--exclude", "tests/*"] ∧
    (∀ gs : List String, gs ≠ [] →
      buildCmd d { include_globs := some gs } =
        ["code2prompt", d, "--include", String.intercalate "," gs] ∧
      buildCmd d { exclude := some gs } =
        ["code2prompt", d, "--exclude", String.intercalate "," gs]) := by
  constructor
  · simp [buildCmd, strFlag, listFlag, boolFlag, truthyStr, truthyList]
    constructor <;> decide
  · intro gs hgs
    constructor <;>
      simp [buildCmd, strFlag, listFlag, boolFlag, truthyStr, truthyList,
        List.isEmpty_eq_true, hgs]

theorem c9_glob_joining_witness :
    ((["*.rs", "*.toml"] : List String) ≠ []) ∧
    buildCmd "/d" { include_globs := some ["*.rs", "*.toml"] } =
      ["code2prompt", "/d", "--include", "*.rs,*.toml"] := by
  refine ⟨by decide, ?_⟩
  have h := ((c9_glob_joining "/d").2 ["*.rs", "*.toml"] (by decide)).1
  simpa using h

theorem clone_calls_heads (url : String) (branch : Option String) (env : Env)
    (self0 : Repo2Prompt) (w : World) :
    callHeads (_clone_repository url branch env self0 w).2.2.2 = ["git"] := by
  unfold _clone_repository callHeads
  by_cases hg : env.gitExit = 0 <;> simp [hg]

theorem run_code2prompt_call_head (d : String) (o : Options) (env : Env)
    (jp : String → Option Json) :
    (_run_code2prompt d o env jp).1.cmd.head?.getD "" = "code2prompt" := by
  rw [run_code2prompt_call_eq]
  by_cases hfmt : o.output_format = some "json" <;> simp [hfmt, buildCmd]

theorem generate_prompt_state_shape (url : String) (sub branch : Option String)
    (o : Options) (env : Env) (jp : String → Option Json) (self0 : Repo2Prompt)
    (w : World) (h : _validate_github_url url = true) :
    (generate_prompt url sub branch o env jp self0 w).2.1.temp_dir = some env.mkdtempName ∧
    env.mkdtempName ∈ (generate_prompt url sub branch o env jp self0 w).2.2.1.dirs := by
  unfold generate_prompt _clone_repository
  rw [h]
  by_cases hg : env.gitExit = 0 <;> simp only [hg, Bool.not_true, Bool.false_eq_true,
    if_false, if_true, ite_true, ite_false, reduceIte]
  · split <;> simp
  · simp

/-- C1.  For every run in which validation passed (so `mkdtemp` created
the temporary directory and assigned it to the scope), the world the
lifecycle holds while `invoke` runs still contains that directory, and
after the scoped `generate` finishes — on every exit path: success,
CloneError, NotFoundError, InvocationError or a JSON-decode failure,
since the environment's exit codes and parser are universally
quantified — the final world contains neither the directory nor anything
beneath it.  The hypothesis `mkdtempName ≠ ""` records that `mkdtemp`
returns a real path (the cleanup guard `if self.temp_dir:` would skip an
empty name). -/
theorem c1_scoped_cleanup (url : String) (sub branch : Option String) (o : Options)
    (env : Env) (jp : String → Option Json) (w : World)
    (hval : _validate_github_url url = true) (hne : env.mkdtempName ≠ "") :
    env.mkdtempName ∈ (generate_prompt url sub branch o env jp {} w).2.2.1.dirs ∧
    ∀ p ∈ (generate url sub branch o env jp w).2.1.dirs,
      underDir env.mkdtempName p = false := by
  obtain ⟨hst, hmem⟩ := generate_prompt_state_shape url sub branch o env jp {} w hval
  refine ⟨hmem, ?_⟩
  intro p hp
  have hsc : (generate url sub branch o env jp w).2.1 =
      scopeExit (generate_prompt url sub branch o env jp {} w).2.1
        (generate_prompt url sub branch o env jp {} w).2.2.1 := rfl
  rw [hsc] at hp
  unfold scopeExit at hp
  rw [hst] at hp
  simp only [hne, if_false, reduceIte] at hp
  unfold rmtree at hp
  have hfilter := (List.mem_filter.mp hp).2
  simpa using hfilter

theorem c1_scoped_cleanup_witness :
    _validate_github_url "https://github.com/acme/widget" = true ∧
    sampleEnv.mkdtempName ≠ "" ∧
    (sampleEnv.mkdtempName ∈
      (generate_prompt "https://github.com/acme/widget" (some "src") none {} sampleEnv
        jpConst {} { dirs := ["/home"] }).2.2.1.dirs ∧
    ∀ p ∈ (generate "https://github.com/acme/widget" (some "src") none {} sampleEnv
        jpConst { dirs := ["/home"] }).2.1.dirs,
      underDir sampleEnv.mkdtempName p = false) := by
  exact ⟨by decide, by decide,
    c1_scoped_cleanup "https://github.com/acme/widget" (some "src") none {} sampleEnv
      jpConst { dirs := ["/home"] } (by decide) (by decide)⟩

theorem generate_callHeads_cases (url : String) (sub branch : Option String)
    (o : Options) (env : Env) (jp : String → Option Json) (w : World)
    (hv : _validate_github_url url = true) :
    callHeads (generate url sub branch o env jp w).2.2 = ["git"] ∨
    (callHeads (generate url sub branch o env jp w).2.2 = ["git", "code2prompt"] ∧
      env.gitExit = 0) := by
  unfold generate generate_prompt _clone_repository
  rw [hv]
  by_cases hg : env.gitExit = 0 <;>
    simp only [hg, Bool.not_true, Bool.false_eq_true, if_false, if_true, ite_true,
      ite_false, reduceIte]
  · split
    · left
      simp [callHeads]
    · right
      refine ⟨?_, trivial⟩
      simp [callHeads, run_code2prompt_call_head]
  · left
    simp [callHeads]

theorem generate_invalid_url (url : String) (sub branch : Option String)
    (o : Options) (env : Env) (jp : String → Option Json) (w : World)
    (hv : _validate_github_url url = false) :
    generate url sub branch o env jp w =
      (Except.error (Err.validationError ("Invalid GitHub repository URL: " ++ url)),
        w, []) := by
  unfold generate generate_prompt
  rw [hv]
  simp [scopeExit]

/-- C5.  `generate` runs validate, clone, resolveSubdirectory and invoke
in strict order, short-circuiting on the first failure.  For every URL
that fails validation the result is the ValidationError raise site, the
world is returned unchanged (no temporary directory was created) and no
external process at all was started (no network access).  The recorded
process calls are always one of `[]`, `[git]`, `[git, code2prompt]`, in
that order; they are empty exactly when validation failed; and the
generator is only ever invoked after validation passed and the clone
exited zero. -/
theorem c5_strict_sequence (url : String) (sub branch : Option String) (o : Options)
    (env : Env) (jp : String → Option Json) (w : World) :
    (_validate_github_url url = false →
      generate url sub branch o env jp w =
        (Except.error (Err.validationError ("Invalid GitHub repository URL: " ++ url)),
          w, [])) ∧
    (callHeads (generate url sub branch o env jp w).2.2 = [] ∨
     callHeads (generate url sub branch o env jp w).2.2 = ["git"] ∨
     callHeads (generate url sub branch o env jp w).2.2 = ["git", "code2prompt"]) ∧
    (callHeads (generate url sub branch o env jp w).2.2 = [] ↔
      _validate_github_url url = false) ∧
    (callHeads (generate url sub branch o env jp w).2.2 = ["git", "code2prompt"] →
      _validate_github_url url = true ∧ env.gitExit = 0) := by
  by_cases hv : _validate_github_url url
  · rcases generate_callHeads_cases url sub branch o env jp w hv with hc | ⟨hc, hg⟩
    · refine ⟨fun h => absurd h (by simp [hv]), Or.inr (Or.inl hc), ?_, ?_⟩
      · rw [hc]
        constructor
        · intro h
          cases h
        · intro h
          rw [hv] at h
          cases h
      · intro h
        rw [hc] at h
        cases h
    · refine ⟨fun h => absurd h (by simp [hv]), Or.inr (Or.inr hc), ?_, ?_⟩
      · rw [hc]
        constructor
        · intro h
          cases h
        · intro h
          rw [hv] at h
          cases h
      · intro _
        exact ⟨hv, hg⟩
  · have hv' : _validate_github_url url = false := by simpa using hv
    have hgen := generate_invalid_url url sub branch o env jp w hv'
    refine ⟨fun _ => hgen, ?_, ?_, ?_⟩
    · left
      rw [hgen]
      rfl
    · rw [hgen]
      simp [callHeads, hv']
    · intro h
      rw [hgen] at h
      cases h

theorem c5_strict_sequence_witness :
    _validate_github_url "https://gitlab.com/acme/widget" = false ∧
    generate "https://gitlab.com/acme/widget" none none {} sampleEnv jpConst
        { dirs := ["/home"] } =
      (Except.error (Err.validationError
          "Invalid GitHub repository URL: https://gitlab.com/acme/widget"),
        { dirs := ["/home"] }, []) := by
  refine ⟨by decide, ?_⟩
  exact (c5_strict_sequence "https://gitlab.com/acme/widget" none none {} sampleEnv
    jpConst { dirs := ["/home"] }).1 (by decide)
